import Mathlib

/-!
A model of the seelog wrapper (`seelogWrapper/log.go`): a facade that maps
the Go standard library's logging vocabulary onto the seelog engine while
adjusting the engine's static function call depth so that emitted records
attribute to the original caller's call site.

The wrapper's functions are translated directly from `log.go`.  The seelog
engine and the Go `fmt` helpers are external collaborators whose code is
not part of the wrapper; their contract (get/set call depth, leveled
emission with caller resolution, logger construction from configuration
text, atomic logger replacement) is modelled from the spec, and every such
definition is marked `Modelled from the spec:` in its doc comment.

Call stacks are modelled as lists of call-site labels, innermost first:
when a facade function is invoked, element 0 of the supplied stack is the
call site of the invocation in the caller's own code.  Each facade function
pushes a label for its own engine-call site before reaching the engine.
-/

namespace SeelogWrapper

set_option maxRecDepth 16384

/-- Log severities of the seelog engine. -/
inductive LogLevel where
  | Trace
  | Debug
  | Info
  | Warn
  | Error
  | Critical
  deriving DecidableEq, Repr

/-- Modelled from the spec: a record as observed by the engine.  `depth` is
the engine's static function call depth at emission time, and `reported`
the source location the engine resolves from the call stack with that
depth. -/
structure LogRecord where
  level : LogLevel
  depth : Nat
  reported : Option String
  msg : String
  deriving DecidableEq, Repr

/-- Modelled from the spec: a logger instance (`LoggerInterface`)
constructed from configuration text, identified by the configuration it was
built from. -/
structure LoggerInterface where
  config : String
  deriving DecidableEq, Repr

/-- Modelled from the spec: the engine's process-wide state: its calibrated
default call depth (with which a direct engine call reports its immediate
invoker), the current configurable call depth, the installed active logger,
and the records emitted so far. -/
structure EngineState where
  defaultDepth : Nat
  depth : Nat
  activeLogger : Option LoggerInterface
  records : List LogRecord
  deriving DecidableEq, Repr

/-- Outcome of a facade call: a normal return, a Go panic carrying a
message, or process termination via `os.Exit` with the given code (after
which nothing in the caller runs, and pending defers are skipped). -/
inductive Outcome where
  | normal
  | panicked (msg : String)
  | exited (code : Nat)
  deriving DecidableEq, Repr

/-- State of the wrapper package: the package variable
`seelogStaticFuncCallDepth` captured in `init` (`base`), plus the engine
state. -/
structure WState where
  base : Nat
  engine : EngineState
  deriving DecidableEq, Repr

/-- Modelled from the spec: Go `fmt.Sprint` on string operands concatenates
them without separators. -/
def sprint (v : List String) : String := String.join v

/-- Modelled from the spec: Go `fmt.Sprintln` joins operands with single
spaces and appends a newline. -/
def sprintln (v : List String) : String := String.intercalate " " v ++ "\n"

/-- Modelled from the spec: Go `fmt.Sprintf` restricted to `%v` verbs over
string operands: each `%v` is replaced by the next argument in order. -/
def sprintfAux : List Char → List String → List Char
  | [], _ => []
  | '%' :: 'v' :: rest, a :: args => a.data ++ sprintfAux rest args
  | c :: rest, args => c :: sprintfAux rest args

/-- Modelled from the spec: Go `fmt.Sprintf`, built on `sprintfAux`. -/
def sprintf (format : String) (args : List String) : String :=
  ⟨sprintfAux format.data args⟩

/-- Frame lookup in a call stack, innermost frame first. -/
def frameAt : List String → Nat → Option String
  | [], _ => none
  | f :: _, 0 => some f
  | _ :: t, n + 1 => frameAt t n

/-- Modelled from the spec: a leveled engine call appends one record,
stamped with the current depth and with the location resolved from the call
stack: at the calibrated default depth the engine reports its immediate
invoker (frame 0), and each extra unit of depth skips one more frame. -/
def emit (lvl : LogLevel) (stack : List String) (m : String) (e : EngineState) : EngineState :=
  { e with records := e.records ++ [⟨lvl, e.depth, frameAt stack (e.depth - e.defaultDepth), m⟩] }

/-- Modelled from the spec: the engine behaviour the wrapper is linked
against: which configuration texts parse, and which replacement candidates
`ReplaceLogger` accepts without error.  The engine described by the spec
rejects an absent (nil) logger. -/
structure EngineBehavior where
  parseOk : String → Bool
  replaceOk : Option LoggerInterface → Bool

/-- Modelled from the spec: `LoggerFromConfigAsBytes` constructs a logger
from configuration text; on parse failure it yields no logger together with
an error (second component `false`). -/
def LoggerFromConfigAsBytes (B : EngineBehavior) (config : String) :
    Option LoggerInterface × Bool :=
  if B.parseOk config then (some ⟨config⟩, true) else (none, false)

/-- Modelled from the spec: `ReplaceLogger` atomically installs the given
logger when the engine accepts it (second component `true`), and otherwise
reports an error and leaves the active logger unchanged. -/
def ReplaceLogger (B : EngineBehavior) (l : Option LoggerInterface) (e : EngineState) :
    EngineState × Bool :=
  if B.replaceOk l then ({ e with activeLogger := l }, true) else (e, false)

/-- Engine `SetStaticFuncCallDepth`, acting on the wrapper state. -/
def setDepth (d : Nat) (s : WState) : WState :=
  { s with engine := { s.engine with depth := d } }

/-- A leveled engine call made from inside the wrapper. -/
def engineCall (lvl : LogLevel) (stack : List String) (m : String) (s : WState) : WState :=
  { s with engine := emit lvl stack m s.engine }

/-- `Trace` from log.go: forwards to the engine's Trace call. -/
def Trace (stack : List String) (v : List String) (s : WState) : WState × Outcome :=
  (engineCall .Trace ("seelogWrapper.Trace" :: stack) (sprint v) s, .normal)

/-- `Debug` from log.go: forwards to the engine's Debug call. -/
def Debug (stack : List String) (v : List String) (s : WState) : WState × Outcome :=
  (engineCall .Debug ("seelogWrapper.Debug" :: stack) (sprint v) s, .normal)

/-- `Info` from log.go: forwards to the engine's Info call. -/
def Info (stack : List String) (v : List String) (s : WState) : WState × Outcome :=
  (engineCall .Info ("seelogWrapper.Info" :: stack) (sprint v) s, .normal)

/-- `Warn` from log.go: forwards to the engine's Warn call. -/
def Warn (stack : List String) (v : List String) (s : WState) : WState × Outcome :=
  (engineCall .Warn ("seelogWrapper.Warn" :: stack) (sprint v) s, .normal)

/-- `Error` from log.go: forwards to the engine's Error call. -/
def Error (stack : List String) (v : List String) (s : WState) : WState × Outcome :=
  (engineCall .Error ("seelogWrapper.Error" :: stack) (sprint v) s, .normal)

/-- `Critical` from log.go: its body forwards to the engine's `Error` call,
not to `Critical`. -/
def Critical (stack : List String) (v : List String) (s : WState) : WState × Outcome :=
  (engineCall .Error ("seelogWrapper.Critical" :: stack) (sprint v) s, .normal)

/-- The fixed message carried by the Go panic raised in `Panic`. -/
def panicDiagnostic : String :=
  "Panic in seelogWrapper, check last critical log for reason.!"

/-- `Fatal` from log.go: sets the engine depth to `base + 2`, logs at Error
level, then calls `os.Exit(1)`; the deferred depth restore never runs
because `os.Exit` skips pending defers. -/
def Fatal (stack : List String) (v : List String) (s : WState) : WState × Outcome :=
  let s1 := setDepth (s.base + 2) s
  let s2 := engineCall .Error ("seelogWrapper.Fatal" :: stack) (sprint v) s1
  (s2, .exited 1)

/-- `Panic` from log.go: sets the engine depth to `base + 2`, logs at
Critical level, then panics with the fixed diagnostic; the deferred restore
of the depth to the captured base runs while the panic unwinds. -/
def Panic (stack : List String) (v : List String) (s : WState) : WState × Outcome :=
  let s1 := setDepth (s.base + 2) s
  let s2 := engineCall .Critical ("seelogWrapper.Panic" :: stack) (sprint v) s1
  let s3 := setDepth s2.base s2
  (s3, .panicked panicDiagnostic)

/-- `Print` from log.go: sets the engine depth to `base + 2`, logs at Info
level, and the deferred restore sets the depth back to the captured base. -/
def Print (stack : List String) (v : List String) (s : WState) : WState × Outcome :=
  let s1 := setDepth (s.base + 2) s
  let s2 := engineCall .Info ("seelogWrapper.Print" :: stack) (sprint v) s1
  let s3 := setDepth s2.base s2
  (s3, .normal)

/-- `Println` from log.go: like `Print` but the engine receives the single
string `fmt.Sprintln(v...)`. -/
def Println (stack : List String) (v : List String) (s : WState) : WState × Outcome :=
  let s1 := setDepth (s.base + 2) s
  let s2 := engineCall .Info ("seelogWrapper.Println" :: stack) (sprint [sprintln v]) s1
  let s3 := setDepth s2.base s2
  (s3, .normal)

/-- `Fatalf` from log.go: sets the engine depth, formats, then calls
`Fatal`; since `Fatal` ends in `os.Exit`, the deferred restore registered
in `Fatalf` is skipped. -/
def Fatalf (stack : List String) (format : String) (v : List String) (s : WState) :
    WState × Outcome :=
  let s1 := setDepth (s.base + 2) s
  Fatal ("seelogWrapper.Fatalf" :: stack) [sprintf format v] s1

/-- `Panicf` from log.go: sets the engine depth, formats, then calls
`Panic`; the deferred restore registered in `Panicf` runs while the panic
unwinds through it. -/
def Panicf (stack : List String) (format : String) (v : List String) (s : WState) :
    WState × Outcome :=
  let s1 := setDepth (s.base + 2) s
  let r := Panic ("seelogWrapper.Panicf" :: stack) [sprintf format v] s1
  (setDepth r.1.base r.1, r.2)

/-- `Printf` from log.go: sets the engine depth, formats, then calls
`Print`; the deferred restore registered in `Printf` runs on return. -/
def Printf (stack : List String) (format : String) (v : List String) (s : WState) :
    WState × Outcome :=
  let s1 := setDepth (s.base + 2) s
  let r := Print ("seelogWrapper.Printf" :: stack) [sprintf format v] s1
  (setDepth r.1.base r.1, r.2)

/-- `SetLoggerConfig` from log.go: builds a logger from the configuration
bytes, discarding the construction error, then replaces the active logger;
on replacement error it calls `Panicf` with the configuration text embedded
in the message. -/
def SetLoggerConfig (B : EngineBehavior) (stack : List String) (config : String)
    (s : WState) : WState × Outcome :=
  let lp := LoggerFromConfigAsBytes B config
  let re := ReplaceLogger B lp.1 s.engine
  let s1 : WState := { s with engine := re.1 }
  if re.2 then (s1, .normal)
  else
    Panicf ("seelogWrapper.SetLoggerConfig" :: stack)
      "Can not replace default logger with new config: %v" [config] s1

/-- The default configuration text from `init` in log.go. -/
def defaultConfig : String :=
  "<seelog type=\"sync\">\n          <outputs formatid=\"ccmp\">\n            <console />\n          </outputs>\n          <formats>\n            <format id=\"ccmp\" format=\"%Ns [%LEVEL] (%File:%Func) %Msg\"/>\n          </formats>\n        </seelog>"

/-- `init` from log.go: captures the engine's current depth in the package
variable, raises the engine depth by one for the single wrapper
indirection, and installs the default configuration via `SetLoggerConfig`. -/
def initWrapper (B : EngineBehavior) (stack : List String) (e : EngineState) :
    WState × Outcome :=
  let base := e.depth
  let e1 := { e with depth := base + 1 }
  SetLoggerConfig B ("seelogWrapper.init" :: stack) defaultConfig ⟨base, e1⟩

/-- Whether `pat` occurs as a contiguous sublist. -/
def listHasSub (pat : List Char) : List Char → Bool
  | [] => pat.isEmpty
  | c :: t => pat.isPrefixOf (c :: t) || listHasSub pat t

/-- Number of positions at which `pat` occurs as a contiguous sublist. -/
def listCountSub (pat : List Char) : List Char → Nat
  | [] => if pat.isEmpty then 1 else 0
  | c :: t => (if pat.isPrefixOf (c :: t) then 1 else 0) + listCountSub pat t

/-- An engine that parses every configuration and accepts exactly the
non-nil replacement candidates. -/
def engineAllOk : EngineBehavior := ⟨fun _ => true, fun l => l.isSome⟩

/-- An engine that parses no configuration and accepts exactly the non-nil
replacement candidates. -/
def engineParseNone : EngineBehavior := ⟨fun _ => false, fun l => l.isSome⟩

/-- An engine that parses no configuration but accepts every replacement
candidate, a nil logger included. -/
def engineLenient : EngineBehavior := ⟨fun _ => false, fun _ => true⟩

/-- A fresh engine with calibrated default depth `d`. -/
def engine0 (d : Nat) : EngineState := ⟨d, d, none, []⟩

/-- The wrapper state produced by a successful `init` on a fresh engine
with default depth 3: base captured as 3, engine depth 4, default
configuration installed. -/
def wSt0 : WState := ⟨3, ⟨3, 4, some ⟨defaultConfig⟩, []⟩⟩

/-- Joining a single operand is the operand itself. -/
theorem sprint_single (x : String) : sprint [x] = x := rfl

/-- Frame 2 of a stack with at least three frames. -/
theorem frameAt_cons_cons_two (a b c : String) (t : List String) :
    frameAt (a :: b :: c :: t) 2 = some c := rfl

/-- Formatting the replacement-failure diagnostic embeds the configuration
text after the fixed message head. -/
theorem sprintf_diag (c : String) :
    sprintf "Can not replace default logger with new config: %v" [c]
      = "Can not replace default logger with new config: " ++ c := by
  have h1 : (sprintf "Can not replace default logger with new config: %v" [c]).data
      = ("Can not replace default logger with new config: ").data ++ (c.data ++ []) := rfl
  have h2 : ("Can not replace default logger with new config: " ++ c).data
      = ("Can not replace default logger with new config: ").data ++ c.data := rfl
  apply String.ext
  rw [h1, h2, List.append_nil]

/-- C1: the claim says every facade level reaches the engine at the mapped
level, and in particular that the facade's `Critical` delivers at the
engine's Critical level.  Evaluating the code at the failing input
`Critical("x")` shows the record is delivered at the engine's Error level,
which is a different level. -/
theorem C1_critical_forwards_to_engine_error :
    ((Critical ["main.go:20"] ["x"] wSt0).1.engine.records.map LogRecord.level
        = [LogLevel.Error])
  ∧ LogLevel.Error ≠ LogLevel.Critical :=
  ⟨rfl, by decide⟩

/-- C2: each facade entry point that interposes another facade call before
the engine (`Fatalf` through `Fatal`, `Panicf` through `Panic`, `Printf`
through `Print`) runs the innermost engine call at skip-depth base plus 2,
the baseline plus the two interposed facade frames, so the emitted record
reports the original caller's call site `c`. -/
theorem C2_interposed_calls_depth_and_attribution
    (s : WState) (hd : s.engine.defaultDepth = s.base)
    (c : String) (rest : List String) (f : String) (v : List String) :
    ((Fatalf (c :: rest) f v s).1.engine.records.map fun r => (r.depth, r.reported))
      = (s.engine.records.map fun r => (r.depth, r.reported)) ++ [(s.base + 2, some c)]
  ∧ ((Panicf (c :: rest) f v s).1.engine.records.map fun r => (r.depth, r.reported))
      = (s.engine.records.map fun r => (r.depth, r.reported)) ++ [(s.base + 2, some c)]
  ∧ ((Printf (c :: rest) f v s).1.engine.records.map fun r => (r.depth, r.reported))
      = (s.engine.records.map fun r => (r.depth, r.reported)) ++ [(s.base + 2, some c)] := by
  refine ⟨?_, ?_, ?_⟩ <;>
    simp [Fatalf, Fatal, Panicf, Panic, Printf, Print, engineCall, emit, setDepth, hd,
      Nat.add_sub_cancel_left, frameAt_cons_cons_two]

/-- Witness for C2 at a concrete post-init state and caller stack. -/
theorem C2_witness :
    wSt0.engine.defaultDepth = wSt0.base
  ∧ (((Fatalf ["main.go:10"] "oops %v" ["x"] wSt0).1.engine.records.map
        fun r => (r.depth, r.reported)) = [(5, some "main.go:10")]
  ∧ ((Panicf ["main.go:10"] "oops %v" ["x"] wSt0).1.engine.records.map
        fun r => (r.depth, r.reported)) = [(5, some "main.go:10")]
  ∧ ((Printf ["main.go:10"] "oops %v" ["x"] wSt0).1.engine.records.map
        fun r => (r.depth, r.reported)) = [(5, some "main.go:10")]) := by
  refine ⟨rfl, ?_⟩
  have h := C2_interposed_calls_depth_and_attribution wSt0 rfl "main.go:10" [] "oops %v" ["x"]
  simpa [wSt0] using h

/-- C3: the claim says every depth-mutating facade call restores the
process-wide skip-depth to its pre-call value, the baseline installed at
initialization.  Evaluating the code at the failing input, the first
`Print("x")` after `init` on a fresh engine with default depth 3: `init`
installs depth 4, but after the `Print` call the depth is 3, the captured
engine default rather than the pre-call value 4. -/
theorem C3_depth_not_restored_after_print :
    ((initWrapper engineAllOk ["main.go:5"] (engine0 3)).1.engine.depth = 4)
  ∧ ((Print ["main.go:7"] ["x"]
        (initWrapper engineAllOk ["main.go:5"] (engine0 3)).1).1.engine.depth = 3) :=
  ⟨rfl, rfl⟩

/-- C4: whenever parsing fails or the engine rejects the replacement (the
engine of the spec rejects an absent logger, hypothesis `hnil`),
`SetLoggerConfig` raises the unrecoverable signal used by `Panic` and emits
one Critical diagnostic embedding the offending configuration text; the
failure is never silently ignored. -/
theorem C4_config_failure_panics_with_config (B : EngineBehavior)
    (hnil : B.replaceOk none = false) (stack : List String) (config : String) (s : WState)
    (hfail : B.parseOk config = false ∨ B.replaceOk (some ⟨config⟩) = false) :
    (SetLoggerConfig B stack config s).2 = Outcome.panicked panicDiagnostic
  ∧ ((SetLoggerConfig B stack config s).1.engine.records.map fun r => (r.level, r.msg))
      = (s.engine.records.map fun r => (r.level, r.msg))
        ++ [(LogLevel.Critical,
             "Can not replace default logger with new config: " ++ config)] := by
  have hrep : B.replaceOk (LoggerFromConfigAsBytes B config).1 = false := by
    rcases hfail with hp | hr
    · simp [LoggerFromConfigAsBytes, hp, hnil]
    · by_cases hp2 : B.parseOk config
      · simp [LoggerFromConfigAsBytes, hp2, hr]
      · simp [LoggerFromConfigAsBytes, hp2, hnil]
  constructor
  · simp [SetLoggerConfig, ReplaceLogger, hrep, Panicf, Panic, engineCall, emit, setDepth]
  · simp [SetLoggerConfig, ReplaceLogger, hrep, Panicf, Panic, engineCall, emit, setDepth,
      sprint_single, sprintf_diag]

/-- Witness for C4 at a parse-failing configuration on the spec's engine. -/
theorem C4_witness :
    engineParseNone.replaceOk none = false
  ∧ engineParseNone.parseOk "bad config" = false
  ∧ ((SetLoggerConfig engineParseNone ["main.go:9"] "bad config" wSt0).2
      = Outcome.panicked panicDiagnostic
  ∧ ((SetLoggerConfig engineParseNone ["main.go:9"] "bad config" wSt0).1.engine.records.map
        fun r => (r.level, r.msg))
      = [(LogLevel.Critical, "Can not replace default logger with new config: bad config")]) := by
  refine ⟨rfl, rfl, ?_⟩
  have h := C4_config_failure_panics_with_config engineParseNone rfl ["main.go:9"] "bad config"
    wSt0 (Or.inl rfl)
  simpa [wSt0] using h

/-- C5: on a syntactically invalid configuration, `SetLoggerConfig` raises
the unrecoverable signal and the previously installed active logger
remains installed unchanged (the spec's engine rejects an absent logger,
hypothesis `hnil`). -/
theorem C5_invalid_config_preserves_active_logger (B : EngineBehavior)
    (hnil : B.replaceOk none = false) (stack : List String) (config : String) (s : WState)
    (hbad : B.parseOk config = false) :
    (SetLoggerConfig B stack config s).2 = Outcome.panicked panicDiagnostic
  ∧ (SetLoggerConfig B stack config s).1.engine.activeLogger = s.engine.activeLogger := by
  constructor <;>
    simp [SetLoggerConfig, LoggerFromConfigAsBytes, ReplaceLogger, hbad, hnil, Panicf, Panic,
      engineCall, emit, setDepth]

/-- Witness for C5: after a failing replacement the default logger from
`init` is still the active one. -/
theorem C5_witness :
    engineParseNone.replaceOk none = false
  ∧ engineParseNone.parseOk "<bad" = false
  ∧ ((SetLoggerConfig engineParseNone ["main.go:11"] "<bad" wSt0).2
      = Outcome.panicked panicDiagnostic
  ∧ (SetLoggerConfig engineParseNone ["main.go:11"] "<bad" wSt0).1.engine.activeLogger
      = some ⟨defaultConfig⟩) := by
  refine ⟨rfl, rfl, ?_⟩
  have h := C5_invalid_config_preserves_active_logger engineParseNone rfl ["main.go:11"] "<bad"
    wSt0 rfl
  simpa [wSt0] using h

/-- Counterexample to C6 as stated: when the argument list joins to exactly
the fixed diagnostic, the message carried by the signal equals the logged
message, so it is not distinct from it. -/
theorem C6_signal_message_not_distinct_cex :
    ((Panic ["main.go:12"] [panicDiagnostic] wSt0).1.engine.records.map LogRecord.msg
        = [panicDiagnostic])
  ∧ (Panic ["main.go:12"] [panicDiagnostic] wSt0).2 = Outcome.panicked panicDiagnostic :=
  ⟨rfl, rfl⟩

/-- C6 (amended): for every argument list, `Panic` emits exactly one
Critical record carrying the joined message and then panics, and the
message carried by the signal is the fixed diagnostic constant, independent
of the arguments; it differs from the logged message except when the
arguments join to that very constant. -/
theorem C6_panic_critical_then_fixed_signal (stack v : List String) (s : WState) :
    ((Panic stack v s).1.engine.records.map fun r => (r.level, r.msg))
      = (s.engine.records.map fun r => (r.level, r.msg)) ++ [(LogLevel.Critical, sprint v)]
  ∧ (Panic stack v s).2 = Outcome.panicked panicDiagnostic
  ∧ panicDiagnostic = "Panic in seelogWrapper, check last critical log for reason.!" := by
  refine ⟨?_, rfl, rfl⟩
  simp [Panic, engineCall, emit, setDepth]

/-- C7: for every argument list, `Fatal` emits exactly one Error record
carrying the joined message and then terminates the process with the
non-zero status 1, so nothing after the call in the caller executes. -/
theorem C7_fatal_error_then_exit (stack v : List String) (s : WState) :
    ((Fatal stack v s).1.engine.records.map fun r => (r.level, r.msg))
      = (s.engine.records.map fun r => (r.level, r.msg)) ++ [(LogLevel.Error, sprint v)]
  ∧ (Fatal stack v s).2 = Outcome.exited 1 := by
  refine ⟨?_, rfl⟩
  simp [Fatal, engineCall, emit, setDepth]

/-- C8: `Println` logs at Info level the arguments joined with single
spaces plus a trailing newline, while `Print` logs the joined arguments at
Info level with no appended newline. -/
theorem C8_print_println_info_level (stack v : List String) (s : WState) :
    ((Print stack v s).1.engine.records.map fun r => (r.level, r.msg))
      = (s.engine.records.map fun r => (r.level, r.msg)) ++ [(LogLevel.Info, sprint v)]
  ∧ (Print stack v s).2 = Outcome.normal
  ∧ ((Println stack v s).1.engine.records.map fun r => (r.level, r.msg))
      = (s.engine.records.map fun r => (r.level, r.msg))
        ++ [(LogLevel.Info, String.intercalate " " v ++ "\n")]
  ∧ (Println stack v s).2 = Outcome.normal := by
  refine ⟨?_, rfl, ?_, rfl⟩ <;>
    simp [Print, Println, engineCall, emit, setDepth, sprint_single, sprintln]

/-- C9: `init` captures the engine's current depth as the baseline, raises
the engine depth by exactly one, and installs the default configuration as
the active logger; that configuration text requests synchronous dispatch, a
single console sink, and the format rendering elapsed time, level, source
file, source function, and message. -/
theorem C9_initialization_defaults (B : EngineBehavior) (stack : List String) (d : Nat)
    (hp : B.parseOk defaultConfig = true)
    (hr : B.replaceOk (some ⟨defaultConfig⟩) = true) :
    (initWrapper B stack (engine0 d)).2 = Outcome.normal
  ∧ (initWrapper B stack (engine0 d)).1.base = d
  ∧ (initWrapper B stack (engine0 d)).1.engine.depth = d + 1
  ∧ (initWrapper B stack (engine0 d)).1.engine.activeLogger = some ⟨defaultConfig⟩
  ∧ listHasSub ("type=\"sync\"").data defaultConfig.data = true
  ∧ listCountSub ("<console").data defaultConfig.data = 1
  ∧ listHasSub ("%Ns [%LEVEL] (%File:%Func) %Msg").data defaultConfig.data = true := by
  refine ⟨?_, ?_, ?_, ?_, by decide, by decide, by decide⟩ <;>
    simp [initWrapper, SetLoggerConfig, LoggerFromConfigAsBytes, ReplaceLogger, hp, hr, engine0]

/-- Witness for C9 on an engine that accepts the default configuration. -/
theorem C9_witness :
    engineAllOk.parseOk defaultConfig = true
  ∧ engineAllOk.replaceOk (some ⟨defaultConfig⟩) = true
  ∧ ((initWrapper engineAllOk ["main.go:3"] (engine0 3)).2 = Outcome.normal
  ∧ (initWrapper engineAllOk ["main.go:3"] (engine0 3)).1.base = 3
  ∧ (initWrapper engineAllOk ["main.go:3"] (engine0 3)).1.engine.depth = 3 + 1
  ∧ (initWrapper engineAllOk ["main.go:3"] (engine0 3)).1.engine.activeLogger
      = some ⟨defaultConfig⟩
  ∧ listHasSub ("type=\"sync\"").data defaultConfig.data = true
  ∧ listCountSub ("<console").data defaultConfig.data = 1
  ∧ listHasSub ("%Ns [%LEVEL] (%File:%Func) %Msg").data defaultConfig.data = true) :=
  ⟨rfl, rfl, C9_initialization_defaults engineAllOk ["main.go:3"] 3 rfl rfl⟩

/-- C10: `SetLoggerConfig` discards the logger-construction error, so for a
configuration whose parse fails but whose (absent) logger the engine's
`ReplaceLogger` accepts without error, the call returns normally, emits
nothing, and the parse failure is silently dropped. -/
theorem C10_parse_error_silently_dropped (B : EngineBehavior) (stack : List String)
    (config : String) (s : WState) (hbad : B.parseOk config = false)
    (hacc : B.replaceOk none = true) :
    (SetLoggerConfig B stack config s).2 = Outcome.normal
  ∧ (SetLoggerConfig B stack config s).1.engine.records = s.engine.records := by
  constructor <;> simp [SetLoggerConfig, LoggerFromConfigAsBytes, ReplaceLogger, hbad, hacc]

/-- Witness for C10 on a lenient engine accepting an absent logger. -/
theorem C10_witness :
    engineLenient.parseOk "bad config" = false
  ∧ engineLenient.replaceOk none = true
  ∧ ((SetLoggerConfig engineLenient ["main.go:13"] "bad config" wSt0).2 = Outcome.normal
  ∧ (SetLoggerConfig engineLenient ["main.go:13"] "bad config" wSt0).1.engine.records
      = wSt0.engine.records) :=
  ⟨rfl, rfl,
    C10_parse_error_silently_dropped engineLenient ["main.go:13"] "bad config" wSt0 rfl rfl⟩

end SeelogWrapper
